import Mathlib

/-!
# Verification of the ai-marketing-agent core (agent engine, model router, memory store)

Shallow embedding of the Python sources `src/core/agent_engine.py`,
`src/core/model_router.py` and `src/core/memory_system.py`.

Modelling conventions:
* Python strings are `List Char` (`PyStr`); Python's `in` substring test is
  `List.IsInfix` (decided by `pyIn`).
* `str.lower()` is `pyLower`, covering ASCII letters and the Polish
  uppercase letters that occur in this code base; other characters are kept
  unchanged (full Unicode case folding is not needed by any claim).
* Python floats that hold critique scores are modelled as `ℚ`; every score
  literal appearing in the source (`5.0`, `7.0`, `10.0`, …) and in the spec's
  examples is exactly representable, so no rounding behaviour is lost.
* Wall-clock timestamps and durations (`time.time()`, `duration_ms`,
  `created_at`) are abstracted away except where a claim depends on them; the
  provider cooldown clock (`model_router.py`) is kept, as rational "now"
  values passed explicitly.
* Regular-expression searches of `AgentEngine._extract_score` are modelled by
  direct matchers implementing exactly the leftmost search and the greedy /
  backtracking behaviour of the four concrete patterns in the source.
-/

/-- Python `str` as a list of characters. -/
abbrev PyStr := List Char

namespace AgentCore

/-- Python `needle in hay` substring test on strings. -/
def pyIn (needle hay : PyStr) : Bool := decide (needle <:+: hay)

/-- `str.lower()` on one character: ASCII letters via `Char.toLower`, plus the
Polish uppercase letters used in this code base; all other characters are
returned unchanged. -/
def pyLowerChar (c : Char) : Char :=
  if c = 'Ą' then 'ą' else if c = 'Ć' then 'ć' else if c = 'Ę' then 'ę'
  else if c = 'Ł' then 'ł' else if c = 'Ń' then 'ń' else if c = 'Ó' then 'ó'
  else if c = 'Ś' then 'ś' else if c = 'Ź' then 'ź' else if c = 'Ż' then 'ż'
  else c.toLower

/-- `str.lower()` on a whole string. -/
def pyLower (s : PyStr) : PyStr := s.map pyLowerChar

/-- Python `list[-n:]`: the last `n` elements. -/
def takeLast (n : ℕ) (l : List α) : List α := l.drop (l.length - n)

/-! ## `AgentEngine._extract_score` (src/core/agent_engine.py lines 220-242)

The Python code lowercases the critique text and then tries, in order, the
regular expressions
  1. `(\d+(?:\.\d+)?)\s*/\s*10`
  2. `score[:\s]+(\d+(?:\.\d+)?)`
  3. `ocena[:\s]+(\d+(?:\.\d+)?)`
  4. `^(\d+(?:\.\d+)?)/10`
via `re.search`, converts the first captured group of the first pattern that
matches to a float, and clamps it to `[0, 10]`; if nothing matches it returns
`5.0`.  (`float` on a `\d+(\.\d+)?` capture never raises, so the
`except ValueError: continue` branch is dead.)  The matchers below implement
the leftmost search position and, at a fixed position, the greedy matching
with the only backtracking these patterns allow: dropping the optional
fractional part.  `\d` is modelled as the ASCII digits and `\s` as the ASCII
whitespace characters. -/

/-- ASCII digit test (models `\d` on the inputs in scope). -/
def isDigitChar (c : Char) : Bool := c.isDigit

/-- Python `\s` (ASCII whitespace). -/
def isPySpace (c : Char) : Bool :=
  c = ' ' || c = '\t' || c = '\n' || c = '\x0d' || c = '\x0b' || c = '\x0c'

/-- A captured number: integer digits and an optional fractional digit run. -/
abbrev NumCap := List Char × Option (List Char)

/-- Value of a digit run. -/
def digitsToNat (ds : List Char) : ℕ :=
  ds.foldl (fun n c => 10 * n + (c.toNat - 48)) 0

/-- Value of a captured `\d+(\.\d+)?` group, as an exact rational
(`d.f = (d * 10^|f| + f) / 10^|f|`), built with `mkRat` so that it evaluates
by kernel reduction. -/
def capturedToRat : NumCap → ℚ
  | (ds, none) => mkRat (digitsToNat ds) 1
  | (ds, some fs) => mkRat (digitsToNat ds * 10 ^ fs.length + digitsToNat fs) (10 ^ fs.length)

/-- Tail check `\s*/\s*10` for pattern 1. -/
def slashTenTail (rest : PyStr) : Bool :=
  match rest.dropWhile isPySpace with
  | '/' :: r2 =>
    (match r2.dropWhile isPySpace with
     | '1' :: '0' :: _ => true
     | _ => false)
  | _ => false

/-- Match `(\d+(?:\.\d+)?)\s*/\s*10` anchored at the current position.
Greedy digits; if the optional fractional group was taken and the tail fails,
the regex engine retries without it. -/
def matchSlashTenAt (s : PyStr) : Option NumCap :=
  let ds := s.takeWhile isDigitChar
  let r1 := s.dropWhile isDigitChar
  if ds.isEmpty then none
  else
    match r1 with
    | '.' :: r2 =>
      let fs := r2.takeWhile isDigitChar
      if fs.isEmpty then
        if slashTenTail r1 then some (ds, none) else none
      else if slashTenTail (r2.dropWhile isDigitChar) then some (ds, some fs)
      else if slashTenTail r1 then some (ds, none)
      else none
    | _ => if slashTenTail r1 then some (ds, none) else none

/-- `re.search` scan for pattern 1: try every position left to right. -/
def searchSlashTen : PyStr → Option NumCap
  | [] => none
  | c :: t =>
    match matchSlashTenAt (c :: t) with
    | some cap => some cap
    | none => searchSlashTen t

/-- Match `label[:\s]+(\d+(?:\.\d+)?)` anchored at the current position. -/
def matchLabelAt (label : PyStr) (s : PyStr) : Option NumCap :=
  if label.isPrefixOf s then
    let rest := s.drop label.length
    let seps := rest.takeWhile (fun c => c = ':' || isPySpace c)
    let r1 := rest.dropWhile (fun c => c = ':' || isPySpace c)
    if seps.isEmpty then none
    else
      let ds := r1.takeWhile isDigitChar
      if ds.isEmpty then none
      else
        match r1.dropWhile isDigitChar with
        | '.' :: r3 =>
          let fs := r3.takeWhile isDigitChar
          if fs.isEmpty then some (ds, none) else some (ds, some fs)
        | _ => some (ds, none)
  else none

/-- `re.search` scan for a label pattern. -/
def searchLabel (label : PyStr) : PyStr → Option NumCap
  | [] => none
  | c :: t =>
    match matchLabelAt label (c :: t) with
    | some cap => some cap
    | none => searchLabel label t

/-- Match `^(\d+(?:\.\d+)?)/10` (anchored at the very start, no spaces). -/
def matchAnchoredSlashTen (s : PyStr) : Option NumCap :=
  let ds := s.takeWhile isDigitChar
  let r1 := s.dropWhile isDigitChar
  let bare : PyStr → Bool := fun r =>
    match r with
    | '/' :: '1' :: '0' :: _ => true
    | _ => false
  if ds.isEmpty then none
  else
    match r1 with
    | '.' :: r2 =>
      let fs := r2.takeWhile isDigitChar
      if fs.isEmpty then
        if bare r1 then some (ds, none) else none
      else if bare (r2.dropWhile isDigitChar) then some (ds, some fs)
      else if bare r1 then some (ds, none)
      else none
    | _ => if bare r1 then some (ds, none) else none

/-- The first of the four patterns that matches, in source order. -/
def firstScoreMatch (t : PyStr) : Option NumCap :=
  match searchSlashTen t with
  | some cap => some cap
  | none =>
    match searchLabel ("score".toList) t with
    | some cap => some cap
    | none =>
      match searchLabel ("ocena".toList) t with
      | some cap => some cap
      | none => matchAnchoredSlashTen t

/-- `min(10.0, max(0.0, score))` from the source, written with explicit
comparisons so that it evaluates by kernel reduction. -/
def clampScore (q : ℚ) : ℚ := if 10 ≤ q then 10 else if q ≤ 0 then 0 else q

/-- `AgentEngine._extract_score`: lowercase the critique text, take the first
pattern match, clamp to `[0, 10]`; default `5.0` when nothing matches. -/
def extract_score (critique_text : PyStr) : ℚ :=
  match firstScoreMatch (pyLower critique_text) with
  | some cap => clampScore (capturedToRat cap)
  | none => 5

/-! ## `AgentEngine._check_brand_compliance` (src/core/agent_engine.py lines 244-286) -/

/-- The negative markers scanned for in the brand guardian's response. -/
def negative_markers : List PyStr :=
  ["nie jest zgodn", "narusza", "problem", "zakazane słow", "niezgodn"].map String.toList

/-- The positive markers scanned for in the brand guardian's response. -/
def positive_markers : List PyStr :=
  ["zgodn", "ok", "zatwierdz", "brak problem", "spełnia"].map String.toList

/-- Python `", ".join(words)`. -/
def joinCommaSep : List PyStr → PyStr
  | [] => []
  | [w] => w
  | w :: ws => w ++ (", ".toList) ++ joinCommaSep ws

/-- The issue text `f"Znaleziono zakazane słowa: {', '.join(found_forbidden)}"`. -/
def forbiddenMsg (found : List PyStr) : PyStr :=
  "Znaleziono zakazane słowa: ".toList ++ joinCommaSep found

/-- `AgentEngine._check_brand_compliance`: `forbidden` is
`self.brand_memory.dna["forbidden_words"]`; returns
`(is_approved, issues_description)`. -/
def _check_brand_compliance (forbidden : List PyStr) (content critique_result : PyStr) :
    Bool × PyStr :=
  let lower_result := pyLower critique_result
  let has_negative := negative_markers.any (fun m => pyIn m lower_result)
  let has_positive := positive_markers.any (fun m => pyIn m lower_result)
  let content_lower := pyLower content
  let found_forbidden := forbidden.filter (fun w => pyIn (pyLower w) content_lower)
  if found_forbidden.isEmpty then
    if has_negative && !has_positive then (false, critique_result) else (true, [])
  else (false, forbiddenMsg found_forbidden)

/-! ## `BaseProvider` health state (src/core/model_router.py lines 29-117)

The wall clock (`time.time()`) is passed explicitly as a rational `now`. -/

inductive ProviderStatus where
  | AVAILABLE | RATE_LIMITED | ERROR | UNKNOWN
deriving DecidableEq

/-- `ProviderState` dataclass. -/
structure ProviderState where
  status : ProviderStatus := .AVAILABLE
  last_error : String := ""
  last_error_time : ℚ := 0
  requests_count : ℕ := 0
  cooldown_until : ℚ := 0
deriving DecidableEq

/-- `BaseProvider.mark_error` (call sites pass `cooldown_seconds=30`). -/
def mark_error (st : ProviderState) (error : String) (now : ℚ) (cooldown_seconds : ℚ) :
    ProviderState :=
  { st with
    status := .ERROR
    last_error := error
    last_error_time := now
    cooldown_until := now + cooldown_seconds }

/-- `BaseProvider.mark_rate_limited`. -/
def mark_rate_limited (st : ProviderState) (now : ℚ) (cooldown_seconds : ℚ) : ProviderState :=
  { st with status := .RATE_LIMITED, cooldown_until := now + cooldown_seconds }

/-- `BaseProvider.is_available`: returns the boolean answer and the possibly
updated state (a rate-limited provider whose cooldown elapsed is flipped back
to `AVAILABLE`; an `ERROR` status is never cleared here). -/
def is_available (st : ProviderState) (now : ℚ) : Bool × ProviderState :=
  if st.status = .RATE_LIMITED then
    if st.cooldown_until < now then (true, { st with status := .AVAILABLE })
    else (false, st)
  else (decide (st.status = .AVAILABLE), st)

/-! ## `PostsHistory.add_post` (src/core/memory_system.py lines 294-357)

`created_at` (wall clock) is abstracted away; every other field of the stored
record is kept. -/

/-- A log message recorded by the agent engine.  Each constructor corresponds
to one (f-)string built by `agent_engine.py`, carrying exactly the data
interpolated into it; the surrounding literal text and the `{score}`/`{ms}`
number formatting are not re-modelled since no claim depends on them. -/
inductive LogMsg where
  | analyzeTarget                       -- "Analizuję cel i grupę docelową..."
  | doneOk (details : PyStr)            -- "Zakończono pomyślnie" (+ details preview)
  | callError (error : PyStr)           -- f"Błąd: {response.error}"
  | writingFirstVersion                 -- "Piszę pierwszą wersję..."
  | assessing (iteration : ℕ)           -- f"Oceniam jakość (iteracja {iteration + 1})..."
  | scoreIs (score : ℚ)                 -- f"Ocena: {state.critique_score}/10"
  | qualityOk                           -- "Jakość wystarczająca, pomijam dalsze poprawki"
  | applyingFixes                       -- "Wprowadzam poprawki na bazie krytyki..."
  | checkingBrand                       -- "Sprawdzam zgodność z Brand DNA..."
  | brandOk                             -- "Treść zgodna z Brand DNA"
  | brandIssues (issues : PyStr)        -- f"Wykryto problemy: {issues[:100]}..."
  | finished (iterations : ℕ)           -- f"Zakończono w {ms}ms ({iterations} iteracji)"
  | quickMode                           -- "Tryb szybki - bezpośrednie generowanie..."
  | criticalError (error : String)      -- f"Błąd krytyczny: {str(e)}"
deriving DecidableEq

/-- One record of the posts history (`entry` dict in `add_post`). -/
structure PostRecord where
  id : ℕ
  content : PyStr
  platform : String
  topic : PyStr
  agent_logs : List LogMsg
  score : Option ℚ
deriving DecidableEq

/-- The arguments of one `add_post` call. -/
structure PostArgs where
  content : PyStr := []
  platform : String := ""
  topic : PyStr := []
  agent_logs : List LogMsg := []
  score : Option ℚ := none
deriving DecidableEq

/-- The entry built by `add_post`: `id` is `len(self.history) + 1` computed on
the pre-insertion history. -/
def mkPostEntry (history : List PostRecord) (a : PostArgs) : PostRecord :=
  { id := history.length + 1
    content := a.content
    platform := a.platform
    topic := a.topic
    agent_logs := a.agent_logs
    score := a.score }

/-- `PostsHistory.add_post`: append the entry, trim to the last 200 records
(`self.history[-200:]`), return the new history and the returned id. -/
def add_post (history : List PostRecord) (a : PostArgs) : List PostRecord × ℕ :=
  let entry := mkPostEntry history a
  (takeLast 200 (history ++ [entry]), entry.id)

/-- Run a sequence of `add_post` calls, also collecting every record created
(the second component), so that eviction can be stated. -/
def runAddPosts : List PostArgs → List PostRecord → List PostRecord × List PostRecord
  | [], h => (h, [])
  | a :: ps, h =>
    let entry := mkPostEntry h a
    let h2 := takeLast 200 (h ++ [entry])
    let rest := runAddPosts ps h2
    (rest.1, entry :: rest.2)

/-! ## `BrandMemory._load` schema merge (src/core/memory_system.py lines 30-86)

JSON documents are modelled as association lists of string keys over a small
JSON-like value type; `{**DEFAULT_DNA, **saved_dna}` is `pyDictMerge`. -/

/-- A JSON-like Python value. -/
inductive PyVal where
  | str (s : String)
  | int (n : ℤ)
  | list (l : List PyVal)
  | dict (l : List (String × PyVal))
  | none

/-- Python `{**a, **b}`: `a`'s keys first (values overridden by `b` where the
key is shared), then `b`'s remaining keys in order. -/
def pyDictMerge (a b : List (String × PyVal)) : List (String × PyVal) :=
  a.map (fun p => (p.1, (List.lookup p.1 b).getD p.2)) ++
    b.filter (fun p => (List.lookup p.1 a).isNone)

/-- `BrandMemory.DEFAULT_DNA` (the `created_at`/`updated_at` placeholders are
`None`). -/
def DEFAULT_DNA : List (String × PyVal) :=
  [("brand_name", .str "Moja Marka"),
   ("tagline", .str ""),
   ("tone_of_voice", .str "Ekspercki, ale przystępny"),
   ("formality_level", .str "medium"),
   ("personality_traits", .list [.str "profesjonalny", .str "pomocny", .str "konkretny"]),
   ("forbidden_words", .list [.str "innowacyjny", .str "dynamiczny", .str "game-changer",
      .str "witajcie", .str "w dzisiejszym świecie", .str "synergiczny"]),
   ("preferred_phrases", .list []),
   ("emoji_policy", .str "minimal"),
   ("max_emojis_per_post", .int 3),
   ("hashtag_policy", .str "minimal"),
   ("max_hashtags", .int 3),
   ("target_audience", .str "Profesjonaliści IT, deweloperzy, tech leads"),
   ("audience_pain_points", .list []),
   ("audience_goals", .list []),
   ("preferred_length", .dict [("LinkedIn", .str "medium"), ("Twitter", .str "short"),
      ("Facebook", .str "medium")]),
   ("created_at", .none),
   ("updated_at", .none)]

/-- `BrandMemory._load` on an existing, well-formed JSON document:
`merged = {**self.DEFAULT_DNA, **saved_dna}`. -/
def brandLoad (saved_dna : List (String × PyVal)) : List (String × PyVal) :=
  pyDictMerge DEFAULT_DNA saved_dna

/-! ## `AgentEngine.run_pipeline` / `run_quick` (src/core/agent_engine.py)

The model router and prompt builder only transport text between the engine
and the LLM backends, so backend responses are modelled as an oracle
(`Backend`) indexed by the data that actually varies per call: the agent role,
the loop iteration, and the previous output / critique passed to it.  Python
exceptions are modelled explicitly where the source can raise them on the
paths the claims are about:

* `FeedbackManager.get_learning_context` dereferences
  `self.feedback_data["positive" / "negative" / "adjustments"]`; `_load`
  returns any valid JSON document unvalidated, so a document without those
  keys raises `KeyError`.  `run_pipeline` calls it *before* its `try:` block.
  The formatted learning text itself only feeds prompts, so it is abstracted
  to `""` on the non-raising path.
* `PostsHistory.add_post` persists with `self._save()` (a file write) after
  mutating the in-memory list; a failing write raises inside `run_pipeline`'s
  `try:` block.  Whether the write succeeds is the `saveOk` flag of the
  environment, and `saveErrMsg` is `str(e)` of the raised error.

Wall-clock durations are abstracted away (they only feed log text). -/

/-- A modelled Python exception. -/
inductive PyErr where
  | keyError (key : String)
  | ioError (msg : String)
deriving DecidableEq

/-- `str(e)` of a modelled exception. -/
def errMsg : PyErr → String
  | .keyError k => k
  | .ioError m => m

/-- `FeedbackManager.get_learning_context`, restricted to its effectful
top-level dictionary accesses (the formatted text only feeds prompts). -/
def get_learning_context (feedback_data : List (String × PyVal)) (_platform : String) :
    Except PyErr String :=
  match List.lookup "positive" feedback_data with
  | Option.none => .error (.keyError "positive")
  | Option.some _ =>
    match List.lookup "negative" feedback_data with
    | Option.none => .error (.keyError "negative")
    | Option.some _ =>
      match List.lookup "adjustments" feedback_data with
      | Option.none => .error (.keyError "adjustments")
      | Option.some _ => .ok ""

/-- `AgentStep` enum. -/
inductive AgentStep where
  | STRATEGY | COPYWRITING | CRITIQUE | EDITING | BRAND_CHECK | FINAL
deriving DecidableEq

/-- `AgentStep[agent_role.upper()] if agent_role.upper() in
AgentStep.__members__ else AgentStep.FINAL`.  None of the configured role keys
("strategist", "copywriter", "critic", "editor", "brand_guardian") uppercases
to a member name, so this always falls back to `FINAL` in practice. -/
def agentStepFor (role : String) : AgentStep :=
  let u := role.toUpper
  if u = "STRATEGY" then .STRATEGY
  else if u = "COPYWRITING" then .COPYWRITING
  else if u = "CRITIQUE" then .CRITIQUE
  else if u = "EDITING" then .EDITING
  else if u = "BRAND_CHECK" then .BRAND_CHECK
  else .FINAL

/-- `AGENTS[role]["name"]`. -/
def agentDisplayName (role : String) : String :=
  if role = "strategist" then "Strategist"
  else if role = "copywriter" then "Copywriter"
  else if role = "critic" then "Critic"
  else if role = "editor" then "Editor"
  else if role = "brand_guardian" then "Brand Guardian"
  else role

/-- `AGENTS[role]["emoji"]`. -/
def agentEmoji (role : String) : String :=
  if role = "strategist" then "🎯"
  else if role = "copywriter" then "✍️"
  else if role = "critic" then "🧐"
  else if role = "editor" then "🛠️"
  else if role = "brand_guardian" then "🛡️"
  else "🤖"

/-- One `AgentLog` record (durations abstracted). -/
structure AgentLog where
  step : AgentStep
  agent_name : String
  emoji : String
  msg : LogMsg
deriving DecidableEq

/-- The router's `APIResponse`, restricted to the fields the engine reads. -/
structure ApiResp where
  success : Bool
  content : PyStr := []
  error : PyStr := []
deriving DecidableEq

/-- `response.content[:100] + "..." if len(response.content) > 100 else
response.content`. -/
def contentPreview (c : PyStr) : PyStr :=
  if 100 < c.length then c.take 100 ++ "...".toList else c

/-- `AgentEngine._call_agent`, given the backend's response: returns the
content (empty on failure) and the log recorded for the call. -/
def call_agent (role : String) (r : ApiResp) : PyStr × AgentLog :=
  if r.success then
    (r.content,
     { step := agentStepFor role
       agent_name := agentDisplayName role
       emoji := agentEmoji role
       msg := .doneOk (contentPreview r.content) })
  else
    ([],
     { step := .FINAL
       agent_name := agentDisplayName role
       emoji := "❌"
       msg := .callError r.error })

/-- Backend oracle: the response `router.call_simple` produces for each agent
call, indexed by the data of the call that varies (iteration index, previous
output, critique). -/
structure Backend where
  strategist : ApiResp
  copywriter : Option PyStr → ApiResp          -- previous_output = strategy (none in quick mode)
  critic : ℕ → PyStr → ApiResp                 -- iteration, current content
  editor : ℕ → PyStr → PyStr → ApiResp         -- iteration, current content, critique
  brandGuardian : PyStr → ApiResp              -- current content
  brandFixEditor : PyStr → PyStr → ApiResp     -- current content, issues

/-- `PipelineState` (durations abstracted; platform kept as its `.value`). -/
structure PState where
  topic : PyStr
  platform : String
  strategy : PyStr := []
  draft : PyStr := []
  critique : PyStr := []
  critique_score : ℚ := 0
  edited_content : PyStr := []
  brand_check_result : PyStr := []
  brand_approved : Bool := false
  final_content : PyStr := []
  iterations : ℕ := 0
deriving DecidableEq

/-- `AgentResult` (the `platform` tag is inside `state`). -/
structure AgentResult where
  success : Bool
  content : PyStr
  logs : List AgentLog
  state : PState
  error : String
deriving DecidableEq

/-- Outcome of one `run_pipeline`/`run_quick` invocation.  `raised` is the
exception escaping the call, if any (in which case `result` is meaningless);
the call counters instrument how many times each backend role was invoked. -/
structure RunOutcome where
  raised : Option PyErr
  result : AgentResult
  history : List PostRecord
  criticCalls : ℕ
  loopEditorCalls : ℕ
  brandGuardianCalls : ℕ
  brandChecked : Bool
deriving DecidableEq

/-- `QUALITY_THRESHOLD = 7.0`. -/
def QUALITY_THRESHOLD : ℚ := 7

/-- `MAX_ITERATIONS = 2`. -/
def MAX_ITERATIONS : ℕ := 2

/-- Result of the critique/edit loop. -/
structure LoopOut where
  content : PyStr
  st : PState
  logs : List AgentLog
  criticCalls : ℕ
  editorCalls : ℕ
deriving DecidableEq

/-- The `for iteration in range(MAX_ITERATIONS)` critique/edit loop of
`run_pipeline` (lines 386-441), recursing over the list of remaining
0-based iteration indices (`range(2)` is `[0, 1]`). -/
def critiqueLoop (b : Backend) :
    (iters : List ℕ) → PyStr → PState → List AgentLog → ℕ → ℕ → LoopOut
  | [], content, st, logs, cc, ec =>
    { content := content, st := st, logs := logs, criticCalls := cc, editorCalls := ec }
  | iter :: rest, content, st, logs, cc, ec =>
    let st1 := { st with iterations := iter + 1 }
    let logs1 := logs ++
      [{ step := .CRITIQUE, agent_name := "Critic", emoji := "🧐", msg := .assessing iter }]
    let cres := call_agent "critic" (b.critic iter content)
    let critique := cres.1
    let logs2 := logs1 ++ [cres.2]
    let score := extract_score critique
    let st2 := { st1 with critique := critique, critique_score := score }
    let logs3 := logs2 ++
      [{ step := .CRITIQUE, agent_name := "Critic", emoji := "📊", msg := .scoreIs score }]
    if QUALITY_THRESHOLD ≤ score then
      { content := content
        st := st2
        logs := logs3 ++
          [{ step := .CRITIQUE, agent_name := "Critic", emoji := "✅", msg := .qualityOk }]
        criticCalls := cc + 1
        editorCalls := ec }
    else
      let logs4 := logs3 ++
        [{ step := .EDITING, agent_name := "Editor", emoji := "🛠️", msg := .applyingFixes }]
      let eres := call_agent "editor" (b.editor iter content critique)
      let logs5 := logs4 ++ [eres.2]
      if eres.1.isEmpty then
        critiqueLoop b rest content st2 logs5 (cc + 1) (ec + 1)
      else
        critiqueLoop b rest eres.1 { st2 with edited_content := eres.1 } logs5
          (cc + 1) (ec + 1)

/-- Result of the brand-check stage. -/
structure BrandOut where
  content : PyStr
  st : PState
  logs : List AgentLog
  guardianCalls : ℕ
  checked : Bool
deriving DecidableEq

/-- The `BRAND GUARDIAN` stage of `run_pipeline` (lines 443-490): guardian
call, compliance check, and — on non-approval — one corrective editor call
whose log is discarded by the source. -/
def brandStage (b : Backend) (forbidden : List PyStr) (skip_brand_check : Bool)
    (content : PyStr) (st : PState) (logs : List AgentLog) : BrandOut :=
  if skip_brand_check then
    { content := content, st := { st with brand_approved := true }, logs := logs
      guardianCalls := 0, checked := false }
  else
    let logs1 := logs ++
      [{ step := .BRAND_CHECK, agent_name := "Brand Guardian", emoji := "🛡️",
         msg := .checkingBrand }]
    let gres := call_agent "brand_guardian" (b.brandGuardian content)
    let brand_check := gres.1
    let logs2 := logs1 ++ [gres.2]
    let comp := _check_brand_compliance forbidden content brand_check
    let st1 := { st with brand_check_result := brand_check, brand_approved := comp.1 }
    if comp.1 then
      { content := content
        st := st1
        logs := logs2 ++
          [{ step := .BRAND_CHECK, agent_name := "Brand Guardian", emoji := "✅",
             msg := .brandOk }]
        guardianCalls := 1, checked := true }
    else
      let logs3 := logs2 ++
        [{ step := .BRAND_CHECK, agent_name := "Brand Guardian", emoji := "⚠️",
           msg := .brandIssues comp.2 }]
      let eres := call_agent "editor" (b.brandFixEditor content comp.2)
      { content := if eres.1.isEmpty then content else eres.1
        st := st1
        logs := logs3
        guardianCalls := 1, checked := true }

/-- Environment of one engine invocation: backend oracle, brand profile's
forbidden words, the loaded feedback document, and persistence behaviour. -/
structure Env where
  backend : Backend
  forbidden : List PyStr
  feedback_data : List (String × PyVal)
  saveOk : Bool
  saveErrMsg : String
  history : List PostRecord

/-- The finalization of `run_pipeline` (lines 492-536): set the final
content, log completion, write the post record (the in-memory history is
mutated before `_save()` can raise), and either return the success result or
— when the persistence write raises inside the `try:` block — the `except`
branch's failure result. -/
def finalStage (env : Env) (topic : PyStr) (platform : String) (bo : BrandOut)
    (cc ec : ℕ) : RunOutcome :=
  let st := { bo.st with final_content := bo.content }
  let logs := bo.logs ++
    [{ step := .FINAL, agent_name := "Pipeline", emoji := "🎉",
       msg := .finished st.iterations }]
  let args : PostArgs :=
    { content := bo.content, platform := platform, topic := topic
      agent_logs := logs.map (·.msg), score := some st.critique_score }
  let h2 := (add_post env.history args).1
  if env.saveOk then
    { raised := Option.none
      result := { success := true, content := bo.content, logs := logs, state := st, error := "" }
      history := h2
      criticCalls := cc, loopEditorCalls := ec
      brandGuardianCalls := bo.guardianCalls, brandChecked := bo.checked }
  else
    { raised := Option.none
      result :=
        { success := false, content := []
          logs := logs ++
            [{ step := .FINAL, agent_name := "Pipeline", emoji := "❌",
               msg := .criticalError env.saveErrMsg }]
          state := st, error := env.saveErrMsg }
      history := h2
      criticCalls := cc, loopEditorCalls := ec
      brandGuardianCalls := bo.guardianCalls, brandChecked := bo.checked }

/-- The log announcing the strategist stage (lines 334-339). -/
def strategyAnnounceLog : AgentLog :=
  { step := .STRATEGY, agent_name := "Strategist", emoji := "🎯", msg := .analyzeTarget }

/-- The log announcing the copywriter stage (lines 358-363). -/
def copyAnnounceLog : AgentLog :=
  { step := .COPYWRITING, agent_name := "Copywriter", emoji := "✍️",
    msg := .writingFirstVersion }

/-- `AgentEngine.run_pipeline`.  The prompt-context preparation (including
`get_learning_context`) happens before the `try:` block, so an exception
there escapes the call (`raised`); inside the block the only modelled raise
site is the persistence write, which the `except` clause converts into a
failure result. -/
def run_pipeline (env : Env) (topic : PyStr) (platform : String)
    (skip_brand_check : Bool := false) : RunOutcome :=
  let st0 : PState := { topic := topic, platform := platform }
  match get_learning_context env.feedback_data platform with
  | .error e =>
    { raised := some e
      result := { success := false, content := [], logs := [], state := st0, error := "" }
      history := env.history
      criticCalls := 0, loopEditorCalls := 0, brandGuardianCalls := 0, brandChecked := false }
  | .ok _learning_context =>
    let logs0 := [strategyAnnounceLog]
    let sres := call_agent "strategist" env.backend.strategist
    let logs1 := logs0 ++ [sres.2]
    if sres.1.isEmpty then
      { raised := Option.none
        result := { success := false, content := [], logs := logs1, state := st0
                    error := "Strategist failed" }
        history := env.history
        criticCalls := 0, loopEditorCalls := 0, brandGuardianCalls := 0, brandChecked := false }
    else
      let st1 := { st0 with strategy := sres.1 }
      let logs2 := logs1 ++ [copyAnnounceLog]
      let cres := call_agent "copywriter" (env.backend.copywriter (some sres.1))
      let logs3 := logs2 ++ [cres.2]
      if cres.1.isEmpty then
        { raised := Option.none
          result := { success := false, content := [], logs := logs3, state := st1
                      error := "Copywriter failed" }
          history := env.history
          criticCalls := 0, loopEditorCalls := 0, brandGuardianCalls := 0, brandChecked := false }
      else
        let st2 := { st1 with draft := cres.1 }
        let lo := critiqueLoop env.backend (List.range MAX_ITERATIONS) cres.1 st2 logs3 0 0
        let bo := brandStage env.backend env.forbidden skip_brand_check lo.content lo.st lo.logs
        finalStage env topic platform bo lo.criticCalls lo.editorCalls

/-- `AgentEngine.run_quick` (lines 538-588): a single copywriter call, no
quality loop, no brand check, no history write — and no `try/except`. -/
def run_quick (env : Env) (topic : PyStr) (platform : String) : RunOutcome :=
  let st0 : PState := { topic := topic, platform := platform }
  let logs0 := [{ step := .COPYWRITING, agent_name := "Quick Mode", emoji := "⚡",
                  msg := LogMsg.quickMode }]
  let cres := call_agent "copywriter" (env.backend.copywriter Option.none)
  let logs1 := logs0 ++ [cres.2]
  { raised := Option.none
    result := { success := !cres.1.isEmpty, content := cres.1, logs := logs1
                state := { st0 with final_content := cres.1 }
                error := if cres.1.isEmpty then "Generation failed" else "" }
    history := env.history
    criticCalls := 0, loopEditorCalls := 0, brandGuardianCalls := 0, brandChecked := false }

/-- The critique/edit loop exactly as `run_pipeline` invokes it on the path
where strategist and copywriter succeeded (convenient name for the nested
term). -/
def pipelineLoop (env : Env) (topic : PyStr) (platform : String) : LoopOut :=
  critiqueLoop env.backend (List.range MAX_ITERATIONS)
    (call_agent "copywriter" (env.backend.copywriter
      (some (call_agent "strategist" env.backend.strategist).1))).1
    { topic := topic, platform := platform
      strategy := (call_agent "strategist" env.backend.strategist).1
      draft := (call_agent "copywriter" (env.backend.copywriter
        (some (call_agent "strategist" env.backend.strategist).1))).1 }
    ([strategyAnnounceLog] ++ [(call_agent "strategist" env.backend.strategist).2] ++
      [copyAnnounceLog] ++
      [(call_agent "copywriter" (env.backend.copywriter
        (some (call_agent "strategist" env.backend.strategist).1))).2])
    0 0

/-- A stub backend whose critic always answers `"9/10"`; used to instantiate
hypotheses of the pipeline theorems at concrete inputs. -/
def stubBackend : Backend where
  strategist := { success := true, content := "strategia marki".toList }
  copywriter := fun _ => { success := true, content := "tekst posta".toList }
  critic := fun _ _ => { success := true, content := "9/10".toList }
  editor := fun _ _ _ => { success := true, content := "poprawiony tekst".toList }
  brandGuardian := fun _ => { success := true, content := "tekst zgodny z zasadami".toList }
  brandFixEditor := fun _ _ => { success := true, content := "naprawiony tekst".toList }

/-- Like `stubBackend` but the critic always answers `"2/10"`. -/
def stubBackendLow : Backend :=
  { stubBackend with critic := fun _ _ => { success := true, content := "2/10".toList } }

/-- Like `stubBackend` but the strategist call fails. -/
def stubBackendNoStrategy : Backend :=
  { stubBackend with strategist := { success := false, error := "timeout".toList } }

/-- A feedback document carrying the top-level schema `_load` would have
written itself. -/
def feedbackOkDoc : List (String × PyVal) :=
  [("positive", .list []), ("negative", .list []), ("adjustments", .list [])]

/-- Witness environment around a given backend. -/
def stubEnv (b : Backend) (saveOk : Bool) : Env :=
  { backend := b, forbidden := [], feedback_data := feedbackOkDoc
    saveOk := saveOk, saveErrMsg := "dysk pełny", history := [] }

/-! ## Helper lemmas -/

theorem clampScore_range (q : ℚ) : 0 ≤ clampScore q ∧ clampScore q ≤ 10 := by
  unfold clampScore
  split_ifs with h1 h2 <;> constructor <;> linarith

theorem takeLast_length (n : ℕ) (l : List α) : (takeLast n l).length = min n l.length := by
  simp only [takeLast, List.length_drop]
  omega

theorem takeLast_of_length_le (n : ℕ) (l : List α) (h : l.length ≤ n) : takeLast n l = l := by
  unfold takeLast
  have h0 : l.length - n = 0 := by omega
  rw [h0, List.drop_zero]

theorem takeLast_idem_append (n : ℕ) (xs ys : List α) :
    takeLast n (takeLast n xs ++ ys) = takeLast n (xs ++ ys) := by
  by_cases h : n ≤ xs.length
  · unfold takeLast
    have h1 : xs.drop (xs.length - n) ++ ys = (xs ++ ys).drop (xs.length - n) :=
      (List.drop_append_of_le_length (by omega)).symm
    rw [h1, List.drop_drop]
    congr 1
    simp only [List.length_drop, List.length_append]
    omega
  · rw [takeLast_of_length_le n xs (by omega)]

theorem runAddPosts_history (ps : List PostArgs) :
    ∀ h : List PostRecord, h.length ≤ 200 →
      (runAddPosts ps h).1 = takeLast 200 (h ++ (runAddPosts ps h).2) ∧
      (runAddPosts ps h).2.length = ps.length := by
  induction ps with
  | nil =>
    intro h hle
    constructor
    · show h = takeLast 200 (h ++ [])
      rw [List.append_nil, takeLast_of_length_le 200 h hle]
    · rfl
  | cons a ps ih =>
    intro h hle
    have h2le : (takeLast 200 (h ++ [mkPostEntry h a])).length ≤ 200 := by
      rw [takeLast_length]; omega
    obtain ⟨ih1, ih2⟩ := ih (takeLast 200 (h ++ [mkPostEntry h a])) h2le
    constructor
    · show (runAddPosts ps (takeLast 200 (h ++ [mkPostEntry h a]))).1 =
        takeLast 200 (h ++
          (mkPostEntry h a :: (runAddPosts ps (takeLast 200 (h ++ [mkPostEntry h a]))).2))
      rw [ih1, takeLast_idem_append]
      congr 1
      simp
    · show (mkPostEntry h a ::
        (runAddPosts ps (takeLast 200 (h ++ [mkPostEntry h a]))).2).length = ps.length + 1
      rw [List.length_cons, ih2]

theorem runAddPosts_ids (ps : List PostArgs) :
    ∀ h : List PostRecord, h.length ≤ 200 →
      (runAddPosts ps h).2.map (·.id) =
        (List.range ps.length).map (fun k => min (h.length + k) 200 + 1) := by
  induction ps with
  | nil => intro h _; rfl
  | cons a ps ih =>
    intro h hle
    simp only [runAddPosts, List.map_cons, List.length_cons, List.range_succ_eq_map,
      List.map_map]
    have h2len : (takeLast 200 (h ++ [mkPostEntry h a])).length = min (h.length + 1) 200 := by
      rw [takeLast_length, List.length_append]
      simp only [List.length_cons, List.length_nil]
      omega
    have h2le : (takeLast 200 (h ++ [mkPostEntry h a])).length ≤ 200 := by omega
    rw [ih _ h2le, h2len]
    refine congrArg₂ _
      (by show h.length + 1 = min (h.length + 0) 200 + 1; omega) ?_
    refine List.map_congr_left ?_
    intro k _
    simp only [Function.comp]
    omega

/-! ## C1 -/

/-- C1 (confirmed): `_extract_score` returns `7.0`, `8.5`, `6.0`, `9.0` on
texts containing `"7/10"`, `"Score: 8.5"`, `"ocena: 6"`, `"9/10
explanation..."`, returns the neutral `5.0` on an unrecognizable input,
clamps the out-of-range `"15/10"` to `10.0`, and every extracted score lies
in `[0, 10]`. -/
theorem extract_score_spec :
    extract_score "7/10".toList = 7 ∧
    extract_score "Score: 8.5".toList = 8.5 ∧
    extract_score "ocena: 6".toList = 6 ∧
    extract_score "9/10 explanation...".toList = 9 ∧
    extract_score "no numbers here".toList = 5 ∧
    extract_score "15/10".toList = 10 ∧
    (∀ t : PyStr, 0 ≤ extract_score t ∧ extract_score t ≤ 10) ∧
    ∀ t : PyStr, firstScoreMatch (pyLower t) = Option.none → extract_score t = 5 := by
  refine ⟨by decide, ?_, by decide, by decide, by decide, by decide, ?_, ?_⟩
  · have h : extract_score "Score: 8.5".toList = mkRat 17 2 := by decide
    rw [h, Rat.mkRat_eq_div]
    norm_num
  · intro t
    unfold extract_score
    cases hm : firstScoreMatch (pyLower t) with
    | none => norm_num
    | some cap => exact clampScore_range _
  · intro t hm
    unfold extract_score
    rw [hm]

/-- C1 witness: the no-match default discharged at a concrete input. -/
theorem extract_score_spec_witness :
    firstScoreMatch (pyLower "no numbers here".toList) = Option.none ∧
    extract_score "no numbers here".toList = 5 :=
  ⟨by decide, (extract_score_spec.2.2.2.2.2.2.2) "no numbers here".toList (by decide)⟩

/-! ## C4 -/

/-- C4 (code_bug evidence): a provider marked rate-limited at time 0 with a
60s cooldown is available again at time 100, but a provider that failed with
a generic error at time 0 and a 30s cooldown is still unavailable at time 100
even though the recorded cooldown expired — `is_available` never clears the
`ERROR` status, so generic errors are permanent rather than temporary. -/
theorem provider_generic_error_not_temporary :
    (is_available (mark_rate_limited {} 0 60) 100).1 = true ∧
    (mark_error {} "boom" 0 30).cooldown_until < 100 ∧
    (is_available (mark_error {} "boom" 0 30) 100).1 = false := by
  refine ⟨?_, ?_, ?_⟩
  · simp [is_available, mark_rate_limited]
    norm_num
  · simp [mark_error]
    norm_num
  · simp [is_available, mark_error]

/-! ## C5 -/

/-- C5 (counterexample): on a fresh history store, the 201st and 202nd
`add_post` calls (0-based positions 200 and 201) both return id 201 — the id
is reused once the 200-record bound has been reached. -/
theorem post_id_reused :
    ((runAddPosts (List.replicate 202 {}) []).2.map (·.id))[200]? = some 201 ∧
    ((runAddPosts (List.replicate 202 {}) []).2.map (·.id))[201]? = some 201 := by
  have h := runAddPosts_ids (List.replicate 202 {}) [] (by simp)
  simp only [List.length_nil, Nat.zero_add, List.length_replicate] at h
  rw [h]
  constructor
  · rw [List.getElem?_map, List.getElem?_range (by omega)]
    rfl
  · rw [List.getElem?_map, List.getElem?_range (by omega)]
    rfl

/-- C5 (amended): every `add_post` call returns `count_before + 1`, and on a
fresh store the k-th call (0-based) returns `min k 200 + 1`: ids are
`1, 2, …, 200, 201, 201, 201, …` — strictly increasing only until the
200-record bound, after which the id 201 is assigned to every further record. -/
theorem post_id_assignment (h : List PostRecord) (a : PostArgs) (ps : List PostArgs) :
    (add_post h a).2 = h.length + 1 ∧
    (runAddPosts ps []).2.map (·.id) =
      (List.range ps.length).map (fun k => min k 200 + 1) := by
  refine ⟨rfl, ?_⟩
  have := runAddPosts_ids ps [] (by simp)
  simpa using this

/-! ## C6 -/

theorem lookup_map_snd {α β γ : Type} [BEq α] [LawfulBEq α]
    (f : α → β → γ) (l : List (α × β)) (k : α) :
    List.lookup k (l.map fun p => (p.1, f p.1 p.2)) = (List.lookup k l).map (f k) := by
  induction l with
  | nil => rfl
  | cons p t ih =>
    obtain ⟨k1, v1⟩ := p
    simp only [List.map_cons, List.lookup_cons]
    cases hbe : k == k1 with
    | true =>
      have : k = k1 := by simpa using hbe
      subst this
      rfl
    | false => simpa [hbe] using ih

theorem lookup_filter_key {α β : Type} [BEq α] [LawfulBEq α]
    (P : α → Bool) (l : List (α × β)) (k : α) :
    List.lookup k (l.filter fun p => P p.1) =
      if P k then List.lookup k l else Option.none := by
  induction l with
  | nil => simp
  | cons p t ih =>
    obtain ⟨k1, v1⟩ := p
    rw [List.filter_cons]
    cases hp : P k1 with
    | true =>
      simp only [hp, if_true]
      cases hbe : k == k1 with
      | true =>
        have hk : k = k1 := by simpa using hbe
        subst hk
        simp [List.lookup_cons, hp]
      | false => simp [List.lookup_cons, hbe, ih]
    | false =>
      simp only [hp, Bool.false_eq_true, if_false]
      rw [ih]
      cases hbe : k == k1 with
      | true =>
        have hk : k = k1 := by simpa using hbe
        subst hk
        simp [hp]
      | false => simp [List.lookup_cons, hbe]

theorem lookup_append {α β : Type} [BEq α] (l1 l2 : List (α × β)) (k : α) :
    List.lookup k (l1 ++ l2) =
      (List.lookup k l1).orElse (fun _ => List.lookup k l2) := by
  induction l1 with
  | nil => rfl
  | cons p t ih =>
    obtain ⟨k1, v1⟩ := p
    cases hbe : k == k1 <;> simp [List.lookup_cons, hbe, ih]

theorem lookup_pyDictMerge (a b : List (String × PyVal)) (k : String) :
    List.lookup k (pyDictMerge a b) =
      (List.lookup k b).orElse (fun _ => List.lookup k a) := by
  unfold pyDictMerge
  rw [lookup_append, lookup_map_snd (fun k v => (List.lookup k b).getD v),
    lookup_filter_key (fun s => (List.lookup s a).isNone)]
  cases ha : List.lookup k a with
  | none =>
    cases hb : List.lookup k b <;> simp [ha, hb, Option.orElse]
  | some v =>
    cases hb : List.lookup k b <;> simp [ha, hb, Option.orElse]

/-- C6 (counterexample): a persisted brand document holding the unknown key
`"unknown_field"` does not have that key ignored on load — the merged profile
still contains it with its saved value. -/
theorem brand_load_keeps_unknown_key :
    List.lookup "unknown_field" (brandLoad [("unknown_field", PyVal.str "x")]) =
      some (PyVal.str "x") := by
  rfl

/-- C6 (amended): `BrandMemory._load` merges `{**DEFAULT_DNA, **saved_dna}`:
for every key, the saved value wins when present (including keys unknown to
the default schema, which are preserved rather than ignored), and every
default key missing from the saved document is backfilled with its default
value. -/
theorem brand_load_merge_spec (saved : List (String × PyVal)) (k : String) :
    List.lookup k (brandLoad saved) =
      (List.lookup k saved).orElse (fun _ => List.lookup k DEFAULT_DNA) :=
  lookup_pyDictMerge DEFAULT_DNA saved k

/-! ## C8 -/

/-- C8 (confirmed): for every sequence of `add_post` calls on a fresh store
the history is exactly the most recent (at most 200) created records in
insertion order, and after 205 insertions exactly 200 records remain, the
evicted 5 being the 5 oldest. -/
theorem posts_history_bounding (ps : List PostArgs) :
    (runAddPosts ps []).1 = takeLast 200 (runAddPosts ps []).2 ∧
    (runAddPosts ps []).2.length = ps.length ∧
    (runAddPosts ps []).1.length = min ps.length 200 ∧
    (ps.length = 205 →
      (runAddPosts ps []).1 = (runAddPosts ps []).2.drop 5 ∧
      (runAddPosts ps []).1.length = 200) := by
  obtain ⟨h1, h2⟩ := runAddPosts_history ps [] (by simp)
  rw [List.nil_append] at h1
  refine ⟨h1, h2, ?_, ?_⟩
  · rw [h1, takeLast_length, h2, Nat.min_comm]
  · intro h205
    constructor
    · rw [h1]
      unfold takeLast
      rw [h2, h205]
    · rw [h1, takeLast_length, h2, h205]
      decide

/-- C8 witness: instantiating the bounded part at 205 concrete insertions. -/
theorem posts_history_bounding_witness :
    (runAddPosts (List.replicate 205 {}) []).1.length = 200 :=
  ((posts_history_bounding (List.replicate 205 {})).2.2.2
    (by rw [List.length_replicate])).2

/-! ## C3 and C10 -/

theorem pyIn_iff (a b : PyStr) : pyIn a b = true ↔ a <:+: b := by
  simp [pyIn]

theorem isSubOfAppendLeft {w t : List Char} (s : List Char) (h : w <:+: t) :
    w <:+: s ++ t := by
  obtain ⟨u, v, huv⟩ := h
  exact ⟨s ++ u, v, by rw [← huv]; simp [List.append_assoc]⟩

theorem memIsSubJoinComma :
    ∀ (l : List PyStr) (w : PyStr), w ∈ l → w <:+: joinCommaSep l := by
  intro l
  induction l with
  | nil => intro w hw; cases hw
  | cons x t ih =>
    intro w hw
    cases t with
    | nil =>
      have hx : w = x := by simpa using hw
      subst hx
      exact ⟨[], [], by simp [joinCommaSep]⟩
    | cons y ts =>
      have hj : joinCommaSep (x :: y :: ts) = x ++ ", ".toList ++ joinCommaSep (y :: ts) := rfl
      rw [hj]
      rcases List.mem_cons.mp hw with hx | hmem
      · subst hx
        exact ⟨[], ", ".toList ++ joinCommaSep (y :: ts), by simp [List.append_assoc]⟩
      · exact isSubOfAppendLeft (x ++ ", ".toList) (ih w hmem)

/-- The result of `_check_brand_compliance` when some forbidden word matches. -/
theorem check_brand_found (forbidden : List PyStr) (content resp : PyStr)
    (hne : forbidden.filter (fun w => pyIn (pyLower w) (pyLower content)) ≠ []) :
    _check_brand_compliance forbidden content resp =
      (false, forbiddenMsg (forbidden.filter (fun w => pyIn (pyLower w) (pyLower content)))) := by
  unfold _check_brand_compliance
  have hb : (forbidden.filter (fun w => pyIn (pyLower w) (pyLower content))).isEmpty = false := by
    cases hf : forbidden.filter (fun w => pyIn (pyLower w) (pyLower content)) with
    | nil => exact absurd hf hne
    | cons a t => rfl
  simp only [hb, Bool.false_eq_true, if_false]

/-- The result of `_check_brand_compliance` when no forbidden word matches. -/
theorem check_brand_clean (forbidden : List PyStr) (content resp : PyStr)
    (hnone : ∀ w ∈ forbidden, pyIn (pyLower w) (pyLower content) = false) :
    _check_brand_compliance forbidden content resp =
      (if negative_markers.any (fun m => pyIn m (pyLower resp)) &&
          !positive_markers.any (fun m => pyIn m (pyLower resp))
       then (false, resp) else (true, [])) := by
  unfold _check_brand_compliance
  have hf : forbidden.filter (fun w => pyIn (pyLower w) (pyLower content)) = [] := by
    rw [List.filter_eq_nil_iff]
    intro w hw
    rw [hnone w hw]
    exact Bool.false_ne_true
  simp only [hf, List.isEmpty_nil, if_true]

/-- C3 (confirmed): if the content contains a forbidden term
(case-insensitively), compliance is false and the issue text names every
matched term, whatever the guardian response says; otherwise the result is
non-approved exactly when the response contains a negative marker and no
positive marker. -/
theorem brand_forbidden_override (forbidden : List PyStr) (content resp : PyStr) :
    ((∃ w ∈ forbidden, pyIn (pyLower w) (pyLower content) = true) →
      (_check_brand_compliance forbidden content resp).1 = false ∧
      ∀ w ∈ forbidden, pyIn (pyLower w) (pyLower content) = true →
        pyIn w (_check_brand_compliance forbidden content resp).2 = true) ∧
    ((∀ w ∈ forbidden, pyIn (pyLower w) (pyLower content) = false) →
      ((_check_brand_compliance forbidden content resp).1 = false ↔
        (negative_markers.any (fun m => pyIn m (pyLower resp)) = true ∧
         positive_markers.any (fun m => pyIn m (pyLower resp)) = false))) := by
  constructor
  · rintro ⟨w0, hw0, hin0⟩
    have hne : forbidden.filter (fun w => pyIn (pyLower w) (pyLower content)) ≠ [] := by
      intro hnil
      have : w0 ∈ forbidden.filter (fun w => pyIn (pyLower w) (pyLower content)) :=
        List.mem_filter.mpr ⟨hw0, hin0⟩
      rw [hnil] at this
      cases this
    rw [check_brand_found forbidden content resp hne]
    refine ⟨rfl, ?_⟩
    intro w hw hin
    have hmem : w ∈ forbidden.filter (fun w => pyIn (pyLower w) (pyLower content)) :=
      List.mem_filter.mpr ⟨hw, hin⟩
    rw [pyIn_iff]
    exact isSubOfAppendLeft _ (memIsSubJoinComma _ w hmem)
  · intro hnone
    rw [check_brand_clean forbidden content resp hnone]
    cases hn : negative_markers.any (fun m => pyIn m (pyLower resp)) <;>
      cases hp : positive_markers.any (fun m => pyIn m (pyLower resp)) <;>
        simp

/-- C3 witness: a concrete forbidden word `"tabu"` matched case-insensitively
forces non-approval with the word named in the issue text, even though the
guardian response is positive; with no forbidden words, a purely negative
response is non-approved. -/
theorem brand_forbidden_override_witness :
    (_check_brand_compliance ["tabu".toList] "Ala ma TABU".toList "tekst jest ok".toList).1
        = false ∧
    pyIn "tabu".toList
      (_check_brand_compliance ["tabu".toList] "Ala ma TABU".toList "tekst jest ok".toList).2
        = true ∧
    (_check_brand_compliance [] "czysty tekst".toList "narusza zasady".toList).1 = false := by
  obtain ⟨h1, h2⟩ :=
    (brand_forbidden_override ["tabu".toList] "Ala ma TABU".toList "tekst jest ok".toList).1
      ⟨"tabu".toList, by decide, by decide⟩
  refine ⟨h1, h2 "tabu".toList (by decide) (by decide), ?_⟩
  exact ((brand_forbidden_override [] "czysty tekst".toList "narusza zasady".toList).2
    (by intro w hw; cases hw)).mpr ⟨by decide, by decide⟩

theorem zgodnSubNiezgodn : "zgodn".toList <:+: "niezgodn".toList := by decide

theorem zgodnSubNieJestZgodn : "zgodn".toList <:+: "nie jest zgodn".toList := by decide

/-- C10 (confirmed): the Polish negative markers `"niezgodn"` and
`"nie jest zgodn"` both contain the positive marker `"zgodn"`, so they can
never trigger non-compliance; with no forbidden term in the content, the
keyword heuristic reports non-compliance exactly for responses containing
`"narusza"`, `"problem"` or `"zakazane słow"` and none of the five positive
markers. -/
theorem brand_heuristic_markers (forbidden : List PyStr) (content resp : PyStr)
    (hnone : ∀ w ∈ forbidden, pyIn (pyLower w) (pyLower content) = false) :
    ((pyIn "niezgodn".toList (pyLower resp) = true ∨
      pyIn "nie jest zgodn".toList (pyLower resp) = true) →
      (_check_brand_compliance forbidden content resp).1 = true) ∧
    ((_check_brand_compliance forbidden content resp).1 = false ↔
      ((pyIn "narusza".toList (pyLower resp) = true ∨
        pyIn "problem".toList (pyLower resp) = true ∨
        pyIn "zakazane słow".toList (pyLower resp) = true) ∧
       ∀ m ∈ positive_markers, pyIn m (pyLower resp) = false)) := by
  have hposOfNeg :
      (pyIn "niezgodn".toList (pyLower resp) = true ∨
        pyIn "nie jest zgodn".toList (pyLower resp) = true) →
      positive_markers.any (fun m => pyIn m (pyLower resp)) = true := by
    intro hcase
    rw [List.any_eq_true]
    refine ⟨"zgodn".toList, by simp [positive_markers], ?_⟩
    rw [pyIn_iff]
    rcases hcase with hni | hnj
    · exact List.IsInfix.trans zgodnSubNiezgodn ((pyIn_iff _ _).mp hni)
    · exact List.IsInfix.trans zgodnSubNieJestZgodn ((pyIn_iff _ _).mp hnj)
  rw [check_brand_clean forbidden content resp hnone]
  constructor
  · intro hcase
    rw [hposOfNeg hcase]
    cases negative_markers.any (fun m => pyIn m (pyLower resp)) <;> rfl
  · cases hn : negative_markers.any (fun m => pyIn m (pyLower resp)) with
    | false =>
      cases hp : positive_markers.any (fun m => pyIn m (pyLower resp)) with
      | false =>
        simp only [Bool.false_and, Bool.false_eq_true, if_false]
        constructor
        · intro hcon; cases hcon
        · rintro ⟨habs, -⟩
          have : negative_markers.any (fun m => pyIn m (pyLower resp)) = true := by
            rw [List.any_eq_true]
            rcases habs with h | h | h
            · exact ⟨"narusza".toList, by simp [negative_markers], h⟩
            · exact ⟨"problem".toList, by simp [negative_markers], h⟩
            · exact ⟨"zakazane słow".toList, by simp [negative_markers], h⟩
          rw [hn] at this
          cases this
      | true =>
        simp only [Bool.not_true, Bool.and_false, Bool.false_eq_true, if_false]
        constructor
        · intro hcon; cases hcon
        · rintro ⟨-, hall⟩
          obtain ⟨m, hm, hpm⟩ := List.any_eq_true.mp hp
          rw [hall m hm] at hpm
          cases hpm
    | true =>
      cases hp : positive_markers.any (fun m => pyIn m (pyLower resp)) with
      | false =>
        simp only [Bool.not_false, Bool.and_true, if_true]
        constructor
        · intro _
          constructor
          · obtain ⟨m, hm, hpm⟩ := List.any_eq_true.mp hn
            have hallpos : ∀ m ∈ positive_markers, pyIn m (pyLower resp) = false := by
              intro m2 hm2
              cases hq : pyIn m2 (pyLower resp) with
              | false => rfl
              | true =>
                have : positive_markers.any (fun m => pyIn m (pyLower resp)) = true :=
                  List.any_eq_true.mpr ⟨m2, hm2, hq⟩
                rw [hp] at this
                cases this
            simp only [negative_markers, List.map_cons, List.map_nil, List.mem_cons,
              List.mem_singleton, List.not_mem_nil, or_false] at hm
            rcases hm with h | h | h | h | h
            all_goals subst h
            · exfalso
              have := hposOfNeg (Or.inr hpm)
              rw [hp] at this
              cases this
            · exact Or.inl hpm
            · exact Or.inr (Or.inl hpm)
            · exact Or.inr (Or.inr hpm)
            · exfalso
              have := hposOfNeg (Or.inl hpm)
              rw [hp] at this
              cases this
          · intro m hm
            cases hq : pyIn m (pyLower resp) with
            | false => rfl
            | true =>
              have : positive_markers.any (fun m => pyIn m (pyLower resp)) = true :=
                List.any_eq_true.mpr ⟨m, hm, hq⟩
              rw [hp] at this
              cases this
        · intro _
          trivial
      | true =>
        have := hposOfNeg
        simp only [Bool.not_true, Bool.and_false, Bool.false_eq_true, if_false]
        constructor
        · intro hcon; cases hcon
        · rintro ⟨-, hall⟩
          obtain ⟨m, hm, hpm⟩ := List.any_eq_true.mp hp
          rw [hall m hm] at hpm
          cases hpm

/-- C10 witness: a guardian response containing `"niezgodna"` is approved on
clean content; one containing `"narusza"` (and no positive marker) is not. -/
theorem brand_heuristic_markers_witness :
    (_check_brand_compliance [] "dobry tekst".toList
      "Treść jest NIEZGODNA z zasadami".toList).1 = true ∧
    (_check_brand_compliance [] "dobry tekst".toList "tekst narusza reguły".toList).1
      = false := by
  constructor
  · exact (brand_heuristic_markers [] "dobry tekst".toList
      "Treść jest NIEZGODNA z zasadami".toList (by intro w hw; cases hw)).1
      (Or.inl (by decide))
  · exact ((brand_heuristic_markers [] "dobry tekst".toList "tekst narusza reguły".toList
      (by intro w hw; cases hw)).2).mpr ⟨Or.inl (by decide), by decide⟩

/-! ## C2, C7, C9: pipeline lemmas -/

theorem critiqueLoop_nil (b : Backend) (c : PyStr) (st : PState) (logs : List AgentLog)
    (cc ec : ℕ) :
    critiqueLoop b [] c st logs cc ec =
      { content := c, st := st, logs := logs, criticCalls := cc, editorCalls := ec } := rfl

/-- One loop iteration whose critique scores at or above the threshold stops
the loop: one more critic call, no editor call, `iterations` stamped. -/
theorem critiqueLoop_cons_stop (b : Backend) (iter : ℕ) (rest : List ℕ) (c : PyStr)
    (st : PState) (logs : List AgentLog) (cc ec : ℕ)
    (h : QUALITY_THRESHOLD ≤ extract_score (call_agent "critic" (b.critic iter c)).1) :
    ∃ st2 logs2,
      critiqueLoop b (iter :: rest) c st logs cc ec =
        { content := c, st := st2, logs := logs2, criticCalls := cc + 1, editorCalls := ec } ∧
      st2.iterations = iter + 1 ∧
      st2.critique_score = extract_score (call_agent "critic" (b.critic iter c)).1 := by
  simp only [critiqueLoop]
  rw [if_pos h]
  refine ⟨_, _, rfl, ?_, ?_⟩ <;> rfl

/-- One loop iteration whose critique scores below the threshold performs one
critic call and one editor call and continues with the remaining iterations. -/
theorem critiqueLoop_cons_low (b : Backend) (iter : ℕ) (rest : List ℕ) (c : PyStr)
    (st : PState) (logs : List AgentLog) (cc ec : ℕ)
    (h : extract_score (call_agent "critic" (b.critic iter c)).1 < QUALITY_THRESHOLD) :
    ∃ c2 st2 logs2,
      critiqueLoop b (iter :: rest) c st logs cc ec =
        critiqueLoop b rest c2 st2 logs2 (cc + 1) (ec + 1) ∧
      st2.iterations = iter + 1 := by
  simp only [critiqueLoop]
  rw [if_neg (not_le.mpr h)]
  by_cases he :
    List.isEmpty (call_agent "editor" (b.editor iter c (call_agent "critic" (b.critic iter c)).1)).1
      = true
  · rw [if_pos he]
    refine ⟨_, _, _, rfl, ?_⟩
    rfl
  · rw [if_neg he]
    refine ⟨_, _, _, rfl, ?_⟩
    rfl

theorem brandStage_st_iterations (b : Backend) (forbidden : List PyStr) (skip : Bool)
    (c : PyStr) (st : PState) (logs : List AgentLog) :
    (brandStage b forbidden skip c st logs).st.iterations = st.iterations := by
  unfold brandStage
  cases skip with
  | true => rfl
  | false =>
    simp only [Bool.false_eq_true, if_false]
    split <;> rfl

theorem brandStage_checked (b : Backend) (forbidden : List PyStr) (skip : Bool)
    (c : PyStr) (st : PState) (logs : List AgentLog) :
    (brandStage b forbidden skip c st logs).checked = !skip := by
  unfold brandStage
  cases skip with
  | true => rfl
  | false =>
    simp only [Bool.false_eq_true, if_false]
    split <;> rfl

theorem finalStage_raised (env : Env) (topic : PyStr) (platform : String) (bo : BrandOut)
    (cc ec : ℕ) : (finalStage env topic platform bo cc ec).raised = Option.none := by
  unfold finalStage
  split <;> rfl

theorem finalStage_criticCalls (env : Env) (topic : PyStr) (platform : String) (bo : BrandOut)
    (cc ec : ℕ) : (finalStage env topic platform bo cc ec).criticCalls = cc := by
  unfold finalStage
  split <;> rfl

theorem finalStage_loopEditorCalls (env : Env) (topic : PyStr) (platform : String)
    (bo : BrandOut) (cc ec : ℕ) :
    (finalStage env topic platform bo cc ec).loopEditorCalls = ec := by
  unfold finalStage
  split <;> rfl

theorem finalStage_brandChecked (env : Env) (topic : PyStr) (platform : String)
    (bo : BrandOut) (cc ec : ℕ) :
    (finalStage env topic platform bo cc ec).brandChecked = bo.checked := by
  unfold finalStage
  split <;> rfl

theorem finalStage_iterations (env : Env) (topic : PyStr) (platform : String)
    (bo : BrandOut) (cc ec : ℕ) :
    (finalStage env topic platform bo cc ec).result.state.iterations = bo.st.iterations := by
  unfold finalStage
  split <;> rfl

theorem finalStage_save_fail (env : Env) (topic : PyStr) (platform : String)
    (bo : BrandOut) (cc ec : ℕ) (h : env.saveOk = false) :
    (finalStage env topic platform bo cc ec).result.success = false ∧
    (finalStage env topic platform bo cc ec).result.error = env.saveErrMsg := by
  unfold finalStage
  rw [h]
  exact ⟨rfl, rfl⟩

/-- `run_pipeline` unfolded on the path where the learning context loads and
the strategist and copywriter both return non-empty content. -/
theorem run_pipeline_main_path (env : Env) (topic : PyStr) (platform : String) (skip : Bool)
    (hgle : get_learning_context env.feedback_data platform = .ok "")
    (hs : (call_agent "strategist" env.backend.strategist).1.isEmpty = false)
    (hc : (call_agent "copywriter" (env.backend.copywriter
      (some (call_agent "strategist" env.backend.strategist).1))).1.isEmpty = false) :
    run_pipeline env topic platform skip =
      finalStage env topic platform
        (brandStage env.backend env.forbidden skip (pipelineLoop env topic platform).content
          (pipelineLoop env topic platform).st (pipelineLoop env topic platform).logs)
        (pipelineLoop env topic platform).criticCalls
        (pipelineLoop env topic platform).editorCalls := by
  unfold run_pipeline pipelineLoop
  rw [hgle]
  simp only [hs, Bool.false_eq_true, if_false, hc]

theorem critiqueLoop_high_two {c : PyStr} {st : PState} {logs : List AgentLog} (b : Backend)
    (h : ∀ i (cx : PyStr),
      QUALITY_THRESHOLD ≤ extract_score (call_agent "critic" (b.critic i cx)).1) :
    ∃ st2 logs2,
      critiqueLoop b [0, 1] c st logs 0 0 =
        { content := c, st := st2, logs := logs2, criticCalls := 1, editorCalls := 0 } ∧
      st2.iterations = 1 := by
  obtain ⟨st2, logs2, heq, hit, -⟩ := critiqueLoop_cons_stop b 0 [1] c st logs 0 0 (h 0 c)
  rw [heq]
  exact ⟨st2, logs2, rfl, hit⟩

theorem critiqueLoop_low_twice {c : PyStr} {st : PState} {logs : List AgentLog} (b : Backend)
    (h : ∀ i (cx : PyStr),
      extract_score (call_agent "critic" (b.critic i cx)).1 < QUALITY_THRESHOLD) :
    ∃ c3 st3 logs3,
      critiqueLoop b [0, 1] c st logs 0 0 =
        { content := c3, st := st3, logs := logs3, criticCalls := 2, editorCalls := 2 } ∧
      st3.iterations = 2 := by
  obtain ⟨c2, st2, logs2, heq1, -⟩ := critiqueLoop_cons_low b 0 [1] c st logs 0 0 (h 0 c)
  obtain ⟨c3, st3, logs3, heq2, hit3⟩ :=
    critiqueLoop_cons_low b 1 [] c2 st2 logs2 (0 + 1) (0 + 1) (h 1 c2)
  rw [heq1, heq2, critiqueLoop_nil]
  exact ⟨c3, st3, logs3, rfl, hit3⟩

/-! ## C2 -/

/-- C2 (confirmed): on a full pipeline run that reaches the quality loop
(learning context loads, strategist and copywriter return non-empty content,
brand check not skipped), if every critic call yields an extracted score
≥ 7.0 the loop performs exactly one critique and zero editor calls and the
final state has `iterations = 1`; if every critic call yields a score < 7.0,
exactly `MAX_ITERATIONS = 2` critique/edit pairs run, the final state has
`iterations = 2`, and the pipeline still proceeds to the brand check. -/
theorem quality_loop_iterations (env : Env) (topic : PyStr) (platform : String)
    (hgle : get_learning_context env.feedback_data platform = .ok "")
    (hs : (call_agent "strategist" env.backend.strategist).1.isEmpty = false)
    (hc : (call_agent "copywriter" (env.backend.copywriter
      (some (call_agent "strategist" env.backend.strategist).1))).1.isEmpty = false) :
    ((∀ i (cx : PyStr),
        QUALITY_THRESHOLD ≤ extract_score (call_agent "critic" (env.backend.critic i cx)).1) →
      (run_pipeline env topic platform false).criticCalls = 1 ∧
      (run_pipeline env topic platform false).loopEditorCalls = 0 ∧
      (run_pipeline env topic platform false).result.state.iterations = 1) ∧
    ((∀ i (cx : PyStr),
        extract_score (call_agent "critic" (env.backend.critic i cx)).1 < QUALITY_THRESHOLD) →
      (run_pipeline env topic platform false).criticCalls = 2 ∧
      (run_pipeline env topic platform false).loopEditorCalls = 2 ∧
      (run_pipeline env topic platform false).result.state.iterations = 2 ∧
      (run_pipeline env topic platform false).brandChecked = true) := by
  rw [run_pipeline_main_path env topic platform false hgle hs hc]
  unfold pipelineLoop
  rw [show List.range MAX_ITERATIONS = [0, 1] from rfl]
  constructor
  · intro hhigh
    obtain ⟨st2, logs2, heq, hit⟩ := critiqueLoop_high_two env.backend hhigh
    rw [heq]
    refine ⟨?_, ?_, ?_⟩
    · rw [finalStage_criticCalls]
    · rw [finalStage_loopEditorCalls]
    · rw [finalStage_iterations, brandStage_st_iterations]
      exact hit
  · intro hlow
    obtain ⟨c3, st3, logs3, heq, hit⟩ := critiqueLoop_low_twice env.backend hlow
    rw [heq]
    refine ⟨?_, ?_, ?_, ?_⟩
    · rw [finalStage_criticCalls]
    · rw [finalStage_loopEditorCalls]
    · rw [finalStage_iterations, brandStage_st_iterations]
      exact hit
    · rw [finalStage_brandChecked, brandStage_checked]
      rfl

/-- C2 witness: two concrete backends, one always scoring `9/10` and one
always scoring `2/10`, exercising both halves. -/
theorem quality_loop_iterations_witness :
    ((run_pipeline (stubEnv stubBackend true) "temat".toList "LinkedIn" false).criticCalls = 1 ∧
     (run_pipeline (stubEnv stubBackend true) "temat".toList "LinkedIn"
        false).loopEditorCalls = 0 ∧
     (run_pipeline (stubEnv stubBackend true) "temat".toList "LinkedIn"
        false).result.state.iterations = 1) ∧
    ((run_pipeline (stubEnv stubBackendLow true) "temat".toList "LinkedIn" false).criticCalls
        = 2 ∧
     (run_pipeline (stubEnv stubBackendLow true) "temat".toList "LinkedIn"
        false).loopEditorCalls = 2 ∧
     (run_pipeline (stubEnv stubBackendLow true) "temat".toList "LinkedIn"
        false).result.state.iterations = 2 ∧
     (run_pipeline (stubEnv stubBackendLow true) "temat".toList "LinkedIn"
        false).brandChecked = true) := by
  constructor
  · refine (quality_loop_iterations (stubEnv stubBackend true) "temat".toList "LinkedIn"
      rfl rfl rfl).1 ?_
    intro i cx
    show QUALITY_THRESHOLD ≤
      extract_score (call_agent "critic" { success := true, content := "9/10".toList }).1
    decide
  · refine (quality_loop_iterations (stubEnv stubBackendLow true) "temat".toList "LinkedIn"
      rfl rfl rfl).2 ?_
    intro i cx
    show extract_score (call_agent "critic" { success := true, content := "2/10".toList }).1 <
      QUALITY_THRESHOLD
    decide

/-! ## C7 -/

/-- C7 (confirmed): when the strategist call returns empty content,
`run_pipeline` returns immediately (no exception) with `success = false`, the
error string `"Strategist failed"` (which mentions the strategist), exactly
the two audit-log entries collected so far, and an unchanged post history. -/
theorem strategist_failure_short_circuit (env : Env) (topic : PyStr) (platform : String)
    (skip : Bool)
    (hgle : get_learning_context env.feedback_data platform = .ok "")
    (hs : (call_agent "strategist" env.backend.strategist).1 = []) :
    (run_pipeline env topic platform skip).raised = Option.none ∧
    (run_pipeline env topic platform skip).result.success = false ∧
    (run_pipeline env topic platform skip).result.error = "Strategist failed" ∧
    pyIn "Strategist".toList
      (run_pipeline env topic platform skip).result.error.toList = true ∧
    (run_pipeline env topic platform skip).result.logs =
      [strategyAnnounceLog, (call_agent "strategist" env.backend.strategist).2] ∧
    (run_pipeline env topic platform skip).history = env.history := by
  unfold run_pipeline
  rw [hgle]
  dsimp only []
  rw [hs]
  refine ⟨rfl, rfl, rfl, ?_, rfl, rfl⟩
  show pyIn "Strategist".toList "Strategist failed".toList = true
  decide

/-- C7 witness: a backend whose strategist call fails. -/
theorem strategist_failure_short_circuit_witness :
    (run_pipeline (stubEnv stubBackendNoStrategy true) "temat".toList "LinkedIn"
      false).result.success = false ∧
    (run_pipeline (stubEnv stubBackendNoStrategy true) "temat".toList "LinkedIn"
      false).result.error = "Strategist failed" ∧
    (run_pipeline (stubEnv stubBackendNoStrategy true) "temat".toList "LinkedIn"
      false).history = [] := by
  obtain ⟨-, h1, h2, -, -, h3⟩ :=
    strategist_failure_short_circuit (stubEnv stubBackendNoStrategy true) "temat".toList
      "LinkedIn" false rfl rfl
  exact ⟨h1, h2, h3⟩

/-! ## C9 -/

/-- C9 (counterexample): `run_pipeline` invoked on an engine whose feedback
store was loaded from the valid-but-schema-less JSON document `{}` raises
`KeyError('positive')` in `get_learning_context` *before* the `try:` block —
the exception escapes the orchestrator's public boundary. -/
theorem pipeline_exception_escapes :
    (run_pipeline
      { backend := stubBackend, forbidden := [], feedback_data := [], saveOk := true
        saveErrMsg := "", history := [] }
      "temat".toList "LinkedIn" false).raised = some (PyErr.keyError "positive") := rfl

/-- C9 (amended): exceptions raised inside `run_pipeline`'s `try:` block are
caught and converted into a failed result carrying the exception's message
(here: a failing persistence write), and on that path no exception escapes;
but the learning-context preparation runs before the `try:` block, so its
exceptions escape (see the counterexample), and `run_quick` installs no
handler at all (none of its modelled calls can raise). -/
theorem pipeline_exception_containment (env : Env) (topic : PyStr) (platform : String)
    (skip : Bool)
    (hgle : get_learning_context env.feedback_data platform = .ok "") :
    (run_pipeline env topic platform skip).raised = Option.none ∧
    ((call_agent "strategist" env.backend.strategist).1.isEmpty = false →
      (call_agent "copywriter" (env.backend.copywriter
        (some (call_agent "strategist" env.backend.strategist).1))).1.isEmpty = false →
      env.saveOk = false →
      (run_pipeline env topic platform skip).result.success = false ∧
      (run_pipeline env topic platform skip).result.error = env.saveErrMsg) ∧
    (run_quick env topic platform).raised = Option.none := by
  refine ⟨?_, ?_, rfl⟩
  · unfold run_pipeline
    rw [hgle]
    dsimp only []
    by_cases h1 : List.isEmpty (call_agent "strategist" env.backend.strategist).1 = true
    · rw [if_pos h1]
    · rw [if_neg h1]
      by_cases h2 : List.isEmpty (call_agent "copywriter" (env.backend.copywriter
        (some (call_agent "strategist" env.backend.strategist).1))).1 = true
      · rw [if_pos h2]
      · rw [if_neg h2]
        exact finalStage_raised _ _ _ _ _ _
  · intro hs hc hsave
    rw [run_pipeline_main_path env topic platform skip hgle hs hc]
    exact finalStage_save_fail _ _ _ _ _ _ hsave

/-- C9 witness for the amended claim: with the schema-correct feedback
document and a failing persistence write, the exception is caught and turned
into the failure result carrying the write error's message. -/
theorem pipeline_exception_containment_witness :
    (run_pipeline (stubEnv stubBackend false) "temat".toList "LinkedIn" false).raised
        = Option.none ∧
    (run_pipeline (stubEnv stubBackend false) "temat".toList "LinkedIn"
        false).result.success = false ∧
    (run_pipeline (stubEnv stubBackend false) "temat".toList "LinkedIn"
        false).result.error = "dysk pełny" := by
  obtain ⟨h1, h2, -⟩ :=
    pipeline_exception_containment (stubEnv stubBackend false) "temat".toList "LinkedIn"
      false rfl
  obtain ⟨h3, h4⟩ := h2 rfl rfl rfl
  exact ⟨h1, h3, h4⟩

end AgentCore
